import Mathlib

/-!
Verification of the poni vSphere provider (`poni/cloud_vsphere.py`).

The module drives asynchronous vSphere operations through generator-based
workflows scheduled by a cooperative polling loop.  We embed the module
shallowly:

* remote VMs, snapshots and power state form a `World`;
* the opaque pyvsphere task / VM objects fed through the generators are a
  `Handle`;
* each generator (`_clone_vm`, `_revert_vm`, `_delete_vm`, `_update_vm`) is an
  explicit step machine: a suspension configuration `GenCfg` plus a resume
  function `stepGen` that, fed the latest refreshed handle, either yields the
  next handle to poll, stops (StopIteration), or fails (a raised exception);
* the scheduler loops of `terminate_instances` and `wait_instances` are a
  fuel-indexed loop over an explicit state, emitting an `Event` for each
  `update_many_objects` call and each `job.send` resume;
* remote side effects are recorded in an operation trace `Sys.trace` and,
  for the operations the code later observes, applied to the `World` when
  the operation is issued (the workflows only consult the world after the
  corresponding task has been polled to a terminal state);
* the behaviour of the remote server when refreshing handles
  (`update_many_objects`) is a parameter `refresh : Handle → Handle`, and the
  initial task returned by each asynchronous call is a parameter
  `mkTask : Op → Handle`.

Python `assert` failures, `KeyError`s and attribute errors on `None` are
modelled by `Option`/`GenRes.fail`.
-/

namespace Poni

/-- One entry of `vm.snapshot.rootSnapshotList`: only the name is consulted. -/
structure SnapshotTree where
  name : String
deriving DecidableEq

/-- The `vm.snapshot` attribute. -/
structure SnapshotInfo where
  rootSnapshotList : List SnapshotTree
deriving DecidableEq

/-- A VM resource on the vSphere side.  `snapshot = none` models a VM object
without a `snapshot` attribute; `ipAddress` is `summary.guest.ipAddress`
(`none` models the attribute being absent or `None`). -/
structure VM where
  name : String
  powerState : String
  snapshot : Option SnapshotInfo
  ipAddress : Option String
deriving DecidableEq

/-- The remote inventory: `vim.find_vm_by_name` searches it. -/
structure World where
  vms : List VM
deriving DecidableEq

/-- `vim.find_vm_by_name(name, ...)`: first VM with the given name, else none. -/
def find_vm_by_name (w : World) (n : String) : Option VM :=
  w.vms.find? (fun v => v.name == n)

/-- The `info` attribute of a pyvsphere Task. -/
structure TaskInfo where
  state : String
deriving DecidableEq

/-- An object fed through a generator: either an asynchronous task (which has
an `info` attribute) or a VM object (which has a `summary` attribute). -/
inductive Handle where
  | task (info : TaskInfo)
  | vmRef (vm : VM)
deriving DecidableEq

/-- The local `done(task)` predicate shared verbatim by `_clone_vm`,
`_revert_vm` and `_delete_vm`: `hasattr(task, 'info') and (task.info.state ==
'success' or task.info.state == 'error')`. -/
def done : Handle → Bool
  | .task i => i.state == "success" || i.state == "error"
  | .vmRef _ => false

/-- Python truthiness of an optional string (`None` and `""` are falsy). -/
def truthy : Option String → Bool
  | some s => !(s == "")
  | none => false

/-- The local `got_ip(task)` predicate of `_clone_vm`, `_revert_vm` and
`_update_vm`: `hasattr(task, 'summary') and getattr(task.summary.guest,
'ipAddress', None)`. -/
def got_ip : Handle → Bool
  | .task _ => false
  | .vmRef v => truthy v.ipAddress

/-- `task.summary.guest.ipAddress` read off a handle (used after `got_ip`). -/
def hIp : Handle → Option String
  | .task _ => none
  | .vmRef v => v.ipAddress

/-- An asynchronous remote operation issued by a workflow. -/
inductive Op where
  | powerOff (vmName : String)
  | powerOn (vmName : String)
  | deleteVm (vmName : String)
  | cloneVm (baseName : String) (targetName : String) (linkedClone : Bool)
  | createSnapshot (vmName : String) (snapName : String) (memory : Bool)
  | revertToCurrentSnapshot (vmName : String)
deriving DecidableEq

/-- Effect of a completed operation on the remote inventory.  A fresh clone
appears powered off, without snapshots and without a guest address; snapshot
creation on a VM that had none installs the named root snapshot (further
snapshots on an already-snapshotted VM are children and are not modelled). -/
def applyOpW (w : World) : Op → World
  | .powerOff n =>
      ⟨w.vms.map (fun v => if v.name == n then { v with powerState := "poweredOff" } else v)⟩
  | .powerOn n =>
      ⟨w.vms.map (fun v => if v.name == n then { v with powerState := "poweredOn" } else v)⟩
  | .deleteVm n => ⟨w.vms.filter (fun v => !(v.name == n))⟩
  | .cloneVm b t _ =>
      match find_vm_by_name w b with
      | some _ => ⟨w.vms ++ [{ name := t, powerState := "poweredOff",
                               snapshot := none, ipAddress := none }]⟩
      | none => w
  | .createSnapshot n s _ =>
      ⟨w.vms.map (fun v =>
        if v.name == n then
          match v.snapshot with
          | none => { v with snapshot := some ⟨[⟨s⟩]⟩ }
          | some _ => v
        else v)⟩
  | .revertToCurrentSnapshot _ => w

/-- The provider-side mutable remote state: the inventory, the
`_base_vm_cache`, and the trace of operations issued so far. -/
structure Sys where
  world : World
  cache : List (String × VM)
  trace : List Op
deriving DecidableEq

/-- Issue an asynchronous operation: record it and apply its remote effect. -/
def issueOp (sys : Sys) (op : Op) : Sys :=
  { sys with world := applyOpW sys.world op, trace := sys.trace ++ [op] }

/-- One entry of `self.instances`.  `ipv4 = none` models the key being absent
(reading it then raises `KeyError`). -/
structure Instance where
  id : String
  vm : Option VM
  vm_name : String
  base_vm_name : String
  vm_state : String
  ipv4 : Option String
deriving DecidableEq

/-- A cloud properties dict.  `instanceId` models the `'instance'` key
(`instance` is a reserved word in Lean); `none` models an absent key. -/
structure CloudProp where
  vm_name : Option String
  base_vm_name : Option String
  instanceId : Option String
deriving DecidableEq

/-- The Instance Registry `self.instances`, an insertion-ordered dict. -/
abbrev Registry := List (String × Instance)

/-- Dict lookup in an association list. -/
def alookup {α : Type} (l : List (String × α)) (k : String) : Option α :=
  (l.find? (fun p => p.1 == k)).map (fun p => p.2)

/-- Dict assignment: replace in place if the key exists, else append. -/
def aset {α : Type} (l : List (String × α)) (k : String) (v : α) : List (String × α) :=
  if l.any (fun p => p.1 == k) then
    l.map (fun p => if p.1 == k then (k, v) else p)
  else l ++ [(k, v)]

/-- Dict deletion. -/
def adel {α : Type} (l : List (String × α)) (k : String) : List (String × α) :=
  l.filter (fun p => !(p.1 == k))

/-- Whether the snapshot test of `_get_instance` holds: the VM has a
`snapshot` attribute, a nonempty `rootSnapshotList`, and its first root
snapshot is named `pristine`. -/
def pristineFirst (vm : VM) : Bool :=
  match vm.snapshot with
  | none => false
  | some s =>
      match s.rootSnapshotList with
      | [] => false
      | t :: _ => t.name == "pristine"

/-- State derivation of `_get_instance` (lines 43-53): start from
`VM_NON_EXISTENT` / `VM_DIRTY` and upgrade through the pristine-snapshot and
power-state checks. -/
def derive_vm_state (vm? : Option VM) : String :=
  match vm? with
  | none => "VM_NON_EXISTENT"
  | some vm =>
      if pristineFirst vm then
        if vm.powerState == "poweredOn" then "VM_RUNNING" else "VM_CLEAN"
      else "VM_DIRTY"

/-- `_get_instance(prop)`: asserts on the `vm_name` / `base_vm_name`
properties, then returns the cached instance or derives and caches a fresh
one.  `none` models an `AssertionError`. -/
def get_instance (w : World) (reg : Registry) (prop : CloudProp) :
    Option (Instance × Registry) :=
  match prop.vm_name with
  | none => none
  | some vm_name =>
    if vm_name == "" then none else
    match prop.base_vm_name with
    | none => none
    | some base_vm_name =>
      if base_vm_name == "" then none else
      match alookup reg vm_name with
      | some inst => some (inst, reg)
      | none =>
          let vm? := find_vm_by_name w vm_name
          let inst : Instance :=
            { id := vm_name, vm := vm?, vm_name := vm_name,
              base_vm_name := base_vm_name,
              vm_state := derive_vm_state vm?, ipv4 := none }
          some (inst, aset reg vm_name inst)

/-- Return value of `init_instance`: `dict(cloud=out_prop)`. -/
structure InitResult where
  cloud : CloudProp
deriving DecidableEq

/-- `init_instance(cloud_prop)`: resolve the instance, deep-copy the input
properties, cap the state at `VM_CLEAN` (the write to `instance["vm_state"]`
lands in the registry entry, which aliases the instance dict) and attach the
instance id to the copy. -/
def init_instance (w : World) (reg : Registry) (prop : CloudProp) :
    Option (InitResult × Registry) :=
  match get_instance w reg prop with
  | none => none
  | some (inst, reg1) =>
      let newState := if inst.vm_state == "VM_RUNNING" then "VM_CLEAN" else inst.vm_state
      let inst1 := { inst with vm_state := newState }
      let reg2 := aset reg1 inst.id inst1
      let out_prop := { prop with instanceId := some inst.id }
      some (⟨out_prop⟩, reg2)

/-- Which workflow generator a job runs. -/
inductive WFKind where
  | clone (nuke_old : Bool)
  | revert
  | delete
  | update
deriving DecidableEq

/-- Suspension configurations of the generators: one constructor per `yield`
site, carrying the local variables consulted after resuming there. -/
inductive GenCfg where
  | cloneAtNukePowerOff (base_vm : VM) (clone : VM)
  | cloneAtNukeDelete (base_vm : VM)
  | cloneAtClone
  | cloneAtPowerOn (clone : VM)
  | cloneAtWaitIp
  | cloneAtSnapshot
  | revertAtRevert (vm : VM)
  | revertAtWaitIp
  | deleteAtPowerOff (vm : VM)
  | deleteAtDelete
  | updateAtWaitIp
deriving DecidableEq

/-- Result of resuming a generator: yield the next handle to poll, raise
`StopIteration`, or raise some other exception (assertion failure or
attribute error), which propagates out of the scheduler. -/
inductive GenRes where
  | yield (cfg : GenCfg) (h : Handle)
  | stop
  | fail
deriving DecidableEq

/-- Everything a generator resume produces: the updated remote state, the
updated instance dict (aliased with the registry entry) and the outcome. -/
structure StepOut where
  sys : Sys
  inst : Instance
  res : GenRes
deriving DecidableEq

/-- Resume `_clone_vm` at its final `while not done(task)` loop (snapshot). -/
def cloneSnapshotResume (sys : Sys) (inst : Instance) (h : Handle) : StepOut :=
  if done h then ⟨sys, inst, .stop⟩ else ⟨sys, inst, .yield .cloneAtSnapshot h⟩

/-- Run `clone.create_snapshot_task('pristine', memory=True)` and enter its
polling loop. -/
def cloneEnterSnapshot (mkTask : Op → Handle) (sys : Sys) (inst : Instance) : StepOut :=
  let op := Op.createSnapshot inst.vm_name "pristine" true
  cloneSnapshotResume (issueOp sys op) inst (mkTask op)

/-- Resume `_clone_vm` at `while not got_ip(task)`: once an address is
reported, record it on the instance and move on to the snapshot step. -/
def cloneWaitIpResume (mkTask : Op → Handle) (sys : Sys) (inst : Instance) (h : Handle) : StepOut :=
  if got_ip h then cloneEnterSnapshot mkTask sys { inst with ipv4 := hIp h }
  else ⟨sys, inst, .yield .cloneAtWaitIp h⟩

/-- Enter the address-polling loop of `_clone_vm` (`task = clone`). -/
def cloneEnterWaitIp (mkTask : Op → Handle) (sys : Sys) (inst : Instance) (clone : VM) : StepOut :=
  cloneWaitIpResume mkTask sys inst (Handle.vmRef clone)

/-- Resume `_clone_vm` at the power-on polling loop. -/
def clonePowerOnResume (mkTask : Op → Handle) (sys : Sys) (inst : Instance)
    (clone : VM) (h : Handle) : StepOut :=
  if done h then cloneEnterWaitIp mkTask sys inst clone
  else ⟨sys, inst, .yield (.cloneAtPowerOn clone) h⟩

/-- Run `clone.power_on_task()` and enter its polling loop. -/
def cloneEnterPowerOn (mkTask : Op → Handle) (sys : Sys) (inst : Instance) (clone : VM) : StepOut :=
  let op := Op.powerOn clone.name
  clonePowerOnResume mkTask (issueOp sys op) inst clone (mkTask op)

/-- Resume `_clone_vm` at the clone-task polling loop; afterwards the clone is
looked up by name (`clone = self.vim.find_vm_by_name(vm_name)`) — failure to
find it makes the subsequent `clone.power_on_task()` raise. -/
def cloneCloneResume (mkTask : Op → Handle) (sys : Sys) (inst : Instance) (h : Handle) : StepOut :=
  if done h then
    match find_vm_by_name sys.world inst.vm_name with
    | none => ⟨sys, inst, .fail⟩
    | some clone => cloneEnterPowerOn mkTask sys inst clone
  else ⟨sys, inst, .yield .cloneAtClone h⟩

/-- Run `base_vm.clone_vm_task(vm_name, linked_clone=False)` and enter its
polling loop. -/
def cloneEnterClone (mkTask : Op → Handle) (sys : Sys) (inst : Instance) (base_vm : VM) : StepOut :=
  let op := Op.cloneVm base_vm.name inst.vm_name false
  cloneCloneResume mkTask (issueOp sys op) inst (mkTask op)

/-- Resume `_clone_vm` at the nuke-delete polling loop. -/
def cloneNukeDeleteResume (mkTask : Op → Handle) (sys : Sys) (inst : Instance)
    (base_vm : VM) (h : Handle) : StepOut :=
  if done h then cloneEnterClone mkTask sys inst base_vm
  else ⟨sys, inst, .yield (.cloneAtNukeDelete base_vm) h⟩

/-- Run `clone.delete_vm_task()` in the nuke branch and enter its loop. -/
def cloneEnterNukeDelete (mkTask : Op → Handle) (sys : Sys) (inst : Instance)
    (base_vm : VM) (clone : VM) : StepOut :=
  let op := Op.deleteVm clone.name
  cloneNukeDeleteResume mkTask (issueOp sys op) inst base_vm (mkTask op)

/-- Resume `_clone_vm` at the nuke-power-off polling loop. -/
def cloneNukePowerOffResume (mkTask : Op → Handle) (sys : Sys) (inst : Instance)
    (base_vm : VM) (clone : VM) (h : Handle) : StepOut :=
  if done h then cloneEnterNukeDelete mkTask sys inst base_vm clone
  else ⟨sys, inst, .yield (.cloneAtNukePowerOff base_vm clone) h⟩

/-- `_get_base_vm(base_vm_name)`: consult `_base_vm_cache`, falling back to a
lookup which populates the cache on success. -/
def get_base_vm (sys : Sys) (base_vm_name : String) : Option VM × Sys :=
  match alookup sys.cache base_vm_name with
  | some base_vm => (some base_vm, sys)
  | none =>
      match find_vm_by_name sys.world base_vm_name with
      | some base_vm => (some base_vm, { sys with cache := aset sys.cache base_vm_name base_vm })
      | none => (none, sys)

/-- First resume (`send(None)`) of `_clone_vm(instance, nuke_old)`: resolve
the base VM (assert), optionally power off and delete an existing same-named
VM, then clone. -/
def cloneStart (mkTask : Op → Handle) (nuke_old : Bool) (sys : Sys) (inst : Instance) : StepOut :=
  match get_base_vm sys inst.base_vm_name with
  | (none, sys1) => ⟨sys1, inst, .fail⟩
  | (some base_vm, sys1) =>
      if nuke_old then
        match find_vm_by_name sys1.world inst.vm_name with
        | some clone =>
            let op := Op.powerOff clone.name
            cloneNukePowerOffResume mkTask (issueOp sys1 op) inst base_vm clone (mkTask op)
        | none => cloneEnterClone mkTask sys1 inst base_vm
      else cloneEnterClone mkTask sys1 inst base_vm

/-- `vm = instance['vm']; if not vm: vm = self.vim.find_vm_by_name(vm_name)`. -/
def resolveVm (w : World) (inst : Instance) : Option VM :=
  match inst.vm with
  | some v => some v
  | none => find_vm_by_name w inst.vm_name

/-- Resume `_revert_vm` at `while not got_ip(task)`: record the address and
fall off the end of the generator. -/
def revertWaitIpResume (sys : Sys) (inst : Instance) (h : Handle) : StepOut :=
  if got_ip h then ⟨sys, { inst with ipv4 := hIp h }, .stop⟩
  else ⟨sys, inst, .yield .revertAtWaitIp h⟩

/-- Resume `_revert_vm` at the revert-task polling loop. -/
def revertRevertResume (sys : Sys) (inst : Instance) (vm : VM) (h : Handle) : StepOut :=
  if done h then revertWaitIpResume sys inst (Handle.vmRef vm)
  else ⟨sys, inst, .yield (.revertAtRevert vm) h⟩

/-- First resume of `_revert_vm(instance)`. -/
def revertStart (mkTask : Op → Handle) (sys : Sys) (inst : Instance) : StepOut :=
  match resolveVm sys.world inst with
  | none => ⟨sys, inst, .fail⟩
  | some vm =>
      let op := Op.revertToCurrentSnapshot vm.name
      revertRevertResume (issueOp sys op) inst vm (mkTask op)

/-- Resume `_delete_vm` at the delete-task polling loop. -/
def deleteDeleteResume (sys : Sys) (inst : Instance) (h : Handle) : StepOut :=
  if done h then ⟨sys, inst, .stop⟩ else ⟨sys, inst, .yield .deleteAtDelete h⟩

/-- Run `vm.delete_vm_task()` and enter its polling loop. -/
def deleteEnterDelete (mkTask : Op → Handle) (sys : Sys) (inst : Instance) (vm : VM) : StepOut :=
  let op := Op.deleteVm vm.name
  deleteDeleteResume (issueOp sys op) inst (mkTask op)

/-- Resume `_delete_vm` at the power-off polling loop. -/
def deletePowerOffResume (mkTask : Op → Handle) (sys : Sys) (inst : Instance)
    (vm : VM) (h : Handle) : StepOut :=
  if done h then deleteEnterDelete mkTask sys inst vm
  else ⟨sys, inst, .yield (.deleteAtPowerOff vm) h⟩

/-- First resume of `_delete_vm(instance)`: resolve the VM (assert), power it
off only if its (cached) power state is `poweredOn`, then delete it. -/
def deleteStart (mkTask : Op → Handle) (sys : Sys) (inst : Instance) : StepOut :=
  match resolveVm sys.world inst with
  | none => ⟨sys, inst, .fail⟩
  | some vm =>
      if vm.powerState == "poweredOn" then
        let op := Op.powerOff vm.name
        deletePowerOffResume mkTask (issueOp sys op) inst vm (mkTask op)
      else deleteEnterDelete mkTask sys inst vm

/-- Resume `_update_vm` at `while not got_ip(task)`. -/
def updateWaitIpResume (sys : Sys) (inst : Instance) (h : Handle) : StepOut :=
  if got_ip h then ⟨sys, { inst with ipv4 := hIp h }, .stop⟩
  else ⟨sys, inst, .yield .updateAtWaitIp h⟩

/-- First resume of `_update_vm(instance)`. -/
def updateStart (sys : Sys) (inst : Instance) : StepOut :=
  match resolveVm sys.world inst with
  | none => ⟨sys, inst, .fail⟩
  | some vm => updateWaitIpResume sys inst (Handle.vmRef vm)

/-- A generator object: freshly created (body not yet entered) or suspended
at a yield site. -/
inductive Gen where
  | notStarted (kind : WFKind)
  | suspended (cfg : GenCfg)
deriving DecidableEq

/-- `job.send(h)`: enter the generator body on the first send (which must be
`send(None)`), or resume at the recorded suspension point with the refreshed
handle. -/
def stepGen (mkTask : Op → Handle) (sys : Sys) (inst : Instance) :
    Gen → Option Handle → StepOut
  | .notStarted k, none =>
      match k with
      | .clone nuke_old => cloneStart mkTask nuke_old sys inst
      | .revert => revertStart mkTask sys inst
      | .delete => deleteStart mkTask sys inst
      | .update => updateStart sys inst
  | .notStarted _, some _ => ⟨sys, inst, .fail⟩
  | .suspended cfg, some h =>
      match cfg with
      | .cloneAtNukePowerOff b c => cloneNukePowerOffResume mkTask sys inst b c h
      | .cloneAtNukeDelete b => cloneNukeDeleteResume mkTask sys inst b h
      | .cloneAtClone => cloneCloneResume mkTask sys inst h
      | .cloneAtPowerOn c => clonePowerOnResume mkTask sys inst c h
      | .cloneAtWaitIp => cloneWaitIpResume mkTask sys inst h
      | .cloneAtSnapshot => cloneSnapshotResume sys inst h
      | .revertAtRevert v => revertRevertResume sys inst v h
      | .revertAtWaitIp => revertWaitIpResume sys inst h
      | .deleteAtPowerOff v => deletePowerOffResume mkTask sys inst v h
      | .deleteAtDelete => deleteDeleteResume sys inst h
      | .updateAtWaitIp => updateWaitIpResume sys inst h
  | .suspended _, none => ⟨sys, inst, .fail⟩

/-- The `private` sub-record returned by `wait_instances` (named `priv`
because `private` is reserved in Lean). -/
structure Priv where
  ip : String
  dns : String
deriving DecidableEq

/-- One value of the `updated_props` dict: `dict(host=ipv4, private=...)`. -/
structure UpdatedProp where
  host : String
  priv : Priv
deriving DecidableEq

/-- A scheduler job: the generator plus the registry key of the instance dict
captured by its closure (the generator mutates that entry through aliasing). -/
structure Job where
  instKey : String
  gen : Gen
deriving DecidableEq

/-- State of the scheduler loops in `terminate_instances` / `wait_instances`. -/
structure LoopSt where
  sys : Sys
  reg : Registry
  jobs : List (String × Job)
  tasks : List (String × Option Handle)
  updated_props : List (String × UpdatedProp)
deriving DecidableEq

/-- Observable scheduler events: one `update_many_objects` round trip, or one
`job.send` resume of the named job. -/
inductive Event where
  | refreshCall
  | resume (id : String)
deriving DecidableEq

/-- The guard `[tasks[x] for x in tasks if tasks[x]]` is nonempty: some
collected handle is non-null. -/
def anyNonNull (tasks : List (String × Option Handle)) : Bool :=
  tasks.any (fun p => p.2.isSome)

/-- `_, tasks = self.vim.update_many_objects(tasks)`: every collected handle
is refreshed by the remote side in a single round trip. -/
def refreshTasks (refresh : Handle → Handle) (tasks : List (String × Option Handle)) :
    List (String × Option Handle) :=
  tasks.map (fun p => (p.1, p.2.map refresh))

/-- The `for instance_id in list(jobs)` loop: resume every job over a snapshot
of the job keys, handling `StopIteration` by retiring the job (and, in
`wait_instances` — `collect = true` — marking the instance `VM_RUNNING` and
collecting its address).  Any other exception propagates (`none`). -/
def runJobs (mkTask : Op → Handle) (collect : Bool) :
    List (String × Job) → LoopSt → List Event × Option LoopSt
  | [], st => ([], some st)
  | (id, _) :: rest, st =>
      match alookup st.jobs id, alookup st.tasks id with
      | some job, some h? =>
          match alookup st.reg job.instKey with
          | none => ([], none)
          | some inst =>
              match stepGen mkTask st.sys inst job.gen h? with
              | ⟨sys1, inst1, .yield cfg h⟩ =>
                  let st1 : LoopSt :=
                    { st with
                      sys := sys1
                      reg := aset st.reg job.instKey inst1
                      jobs := aset st.jobs id ⟨job.instKey, .suspended cfg⟩
                      tasks := aset st.tasks id (some h) }
                  (Event.resume id :: (runJobs mkTask collect rest st1).1,
                   (runJobs mkTask collect rest st1).2)
              | ⟨sys1, inst1, .stop⟩ =>
                  let st1 : LoopSt :=
                    { st with
                      sys := sys1
                      reg := aset st.reg job.instKey inst1
                      jobs := adel st.jobs id
                      tasks := adel st.tasks id }
                  if collect then
                    match alookup st1.reg id with
                    | none => ([Event.resume id], none)
                    | some inst2 =>
                        let inst3 := { inst2 with vm_state := "VM_RUNNING" }
                        let st2 := { st1 with reg := aset st1.reg id inst3 }
                        match inst3.ipv4 with
                        | none => ([Event.resume id], none)
                        | some ip =>
                            let st3 := { st2 with updated_props :=
                              st2.updated_props ++ [(id, ⟨ip, ⟨ip, ip⟩⟩)] }
                            (Event.resume id :: (runJobs mkTask collect rest st3).1,
                             (runJobs mkTask collect rest st3).2)
                  else
                    (Event.resume id :: (runJobs mkTask collect rest st1).1,
                     (runJobs mkTask collect rest st1).2)
              | ⟨_, _, .fail⟩ => ([Event.resume id], none)
      | _, _ => ([], none)

/-- One iteration of the `while jobs:` scheduler loop (lines 96-110 and
152-173): a single batched refresh exactly when some handle is non-null,
then every active job is resumed, then the fixed sleep (not modelled). -/
def loopBody (mkTask : Op → Handle) (refresh : Handle → Handle) (collect : Bool)
    (st : LoopSt) : List Event × Option LoopSt :=
  let st1 := if anyNonNull st.tasks
             then { st with tasks := refreshTasks refresh st.tasks } else st
  ((if anyNonNull st.tasks then [Event.refreshCall] else [])
      ++ (runJobs mkTask collect st1.jobs st1).1,
   (runJobs mkTask collect st1.jobs st1).2)

/-- The `while jobs:` loop, fuel-indexed (the real loop has no bound; `none`
when the fuel runs out with jobs remaining or an exception propagates). -/
def runLoop (mkTask : Op → Handle) (refresh : Handle → Handle) (collect : Bool) :
    Nat → LoopSt → Option LoopSt
  | 0, st => if st.jobs.isEmpty then some st else none
  | fuel + 1, st =>
      if st.jobs.isEmpty then some st
      else
        match (loopBody mkTask refresh collect st).2 with
        | none => none
        | some st1 => runLoop mkTask refresh collect fuel st1

/-- Job selection of `wait_instances` (lines 134-146): the `wait_state ==
'running'` branch dispatches on the derived state; otherwise only a
`VM_RUNNING` instance gets an update job. -/
def select_job (wait_state vm_state : String) : Option WFKind :=
  if wait_state == "running" then
    if vm_state == "VM_CLEAN" then some .revert
    else if vm_state == "VM_NON_EXISTENT" then some (.clone true)
    else if vm_state == "VM_DIRTY" then some (.clone true)
    else none
  else
    if vm_state == "VM_RUNNING" then some .update else none

/-- Job selection of `terminate_instances` (line 93): every instance not in
`VM_NON_EXISTENT` state gets a delete job. -/
def select_terminate (vm_state : String) : Option WFKind :=
  if vm_state == "VM_NON_EXISTENT" then none else some .delete

/-- The job-construction phase shared by `terminate_instances` and
`wait_instances`: for each properties dict, read its `'instance'` key
(`KeyError` if absent), resolve the instance, and enrol a job when the
selector picks a workflow. -/
def buildJobs (w : World) (sel : String → Option WFKind) :
    List CloudProp → Registry → List (String × Job) → List (String × Option Handle) →
    Option (Registry × List (String × Job) × List (String × Option Handle))
  | [], reg, jobs, tasks => some (reg, jobs, tasks)
  | prop :: rest, reg, jobs, tasks =>
      match prop.instanceId with
      | none => none
      | some instance_id =>
          match get_instance w reg prop with
          | none => none
          | some (inst, reg1) =>
              match sel inst.vm_state with
              | some kind =>
                  buildJobs w sel rest reg1
                    (aset jobs instance_id ⟨inst.id, Gen.notStarted kind⟩)
                    (aset tasks instance_id none)
              | none => buildJobs w sel rest reg1 jobs tasks

/-- `wait_instances(props, wait_state)`: build the jobs, drive them to
completion, return the updated registry and the collected
`{host, private:{ip, dns}}` records. -/
def wait_instances (mkTask : Op → Handle) (refresh : Handle → Handle) (fuel : Nat)
    (sys : Sys) (reg : Registry) (props : List CloudProp) (wait_state : String) :
    Option (Sys × Registry × List (String × UpdatedProp)) :=
  match buildJobs sys.world (select_job wait_state) props reg [] [] with
  | none => none
  | some (reg1, jobs, tasks) =>
      match runLoop mkTask refresh true fuel ⟨sys, reg1, jobs, tasks, []⟩ with
      | none => none
      | some st => some (st.sys, st.reg, st.updated_props)

/-- `terminate_instances(props)`: build delete jobs for every instance not
`VM_NON_EXISTENT` and drive them to completion; no per-instance results. -/
def terminate_instances (mkTask : Op → Handle) (refresh : Handle → Handle) (fuel : Nat)
    (sys : Sys) (reg : Registry) (props : List CloudProp) : Option (Sys × Registry) :=
  match buildJobs sys.world select_terminate props reg [] [] with
  | none => none
  | some (reg1, jobs, tasks) =>
      match runLoop mkTask refresh false fuel ⟨sys, reg1, jobs, tasks, []⟩ with
      | none => none
      | some st => some (st.sys, st.reg)

/-- Drive a single generator to completion outside the batched scheduler:
resume it, refresh the yielded handle, and feed it back, `fuel` times at
most. -/
def driveGen (mkTask : Op → Handle) (refresh : Handle → Handle) :
    Nat → Sys → Instance → Gen → Option Handle → Option (Sys × Instance)
  | 0, _, _, _, _ => none
  | fuel + 1, sys, inst, g, h? =>
      match stepGen mkTask sys inst g h? with
      | ⟨sys1, inst1, .stop⟩ => some (sys1, inst1)
      | ⟨sys1, inst1, .yield cfg h⟩ =>
          driveGen mkTask refresh fuel sys1 inst1 (.suspended cfg) (some (refresh h))
      | ⟨_, _, .fail⟩ => none

/-- A freshly created asynchronous task that has not reached a terminal
state. -/
def pendingTask : Handle := .task ⟨"running"⟩

/-- Task environment in which every asynchronous call returns a still-running
task, so every polling loop suspends at least once. -/
def mkPending : Op → Handle := fun _ => pendingTask

/-- Remote refresh behaviour for complete runs: every polled task reaches
`success`, and a polled VM reports the guest address `ip`. -/
def refreshWith (ip : String) : Handle → Handle
  | .task _ => .task ⟨"success"⟩
  | .vmRef v => .vmRef { v with ipAddress := some ip }

/-- Heap of Python dict objects, modelling object identity for the frame
property of `init_instance`: addresses map to descriptor values. -/
structure PropHeap where
  objs : List (Nat × CloudProp)
  next : Nat
deriving DecidableEq

/-- Dereference an address. -/
def hlookup (hp : PropHeap) (a : Nat) : Option CloudProp :=
  (hp.objs.find? (fun p => p.1 == a)).map (fun p => p.2)

/-- Mutate the object at an address in place. -/
def hset (hp : PropHeap) (a : Nat) (v : CloudProp) : PropHeap :=
  { hp with objs := hp.objs.map (fun p => if p.1 == a then (a, v) else p) }

/-- Allocate a fresh object (what `copy.deepcopy` does). -/
def halloc (hp : PropHeap) (v : CloudProp) : Nat × PropHeap :=
  (hp.next, { objs := hp.objs ++ [(hp.next, v)], next := hp.next + 1 })

/-- All allocated addresses are below the allocation counter. -/
def heapWF (hp : PropHeap) : Bool :=
  hp.objs.all (fun p => p.1 < hp.next)

/-- `init_instance` at the object level: the caller's descriptor is passed by
address; `copy.deepcopy` allocates a fresh object and the `'instance'` key is
written only to that copy. -/
def init_instance_heap (w : World) (reg : Registry) (hp : PropHeap) (a : Nat) :
    Option (Nat × PropHeap × Registry) :=
  match hlookup hp a with
  | none => none
  | some prop =>
      match get_instance w reg prop with
      | none => none
      | some (inst, reg1) =>
          let alloc := halloc hp prop
          let newState := if inst.vm_state == "VM_RUNNING" then "VM_CLEAN" else inst.vm_state
          let reg2 := aset reg1 inst.id { inst with vm_state := newState }
          let hp2 := hset alloc.2 alloc.1 { prop with instanceId := some inst.id }
          some (alloc.1, hp2, reg2)

/-- Whether a suspension point waits on an asynchronous task handle (its loop
predicate is the `done` test), as opposed to polling a VM object for its
guest address (`got_ip`). -/
def waitsOnTask : GenCfg → Bool
  | .cloneAtWaitIp => false
  | .revertAtWaitIp => false
  | .updateAtWaitIp => false
  | _ => true

/-- Fixture: a managed VM named `web-1`, pristine snapshot, powered on. -/
def vmWeb : VM :=
  { name := "web-1", powerState := "poweredOn",
    snapshot := some ⟨[⟨"pristine"⟩]⟩, ipAddress := some "10.0.0.5" }

/-- Fixture: the base image `base-img`. -/
def baseImg : VM :=
  { name := "base-img", powerState := "poweredOn",
    snapshot := some ⟨[⟨"pristine"⟩]⟩, ipAddress := some "10.0.0.9" }

/-- Fixture: cloud properties for `web-1` cloned from `base-img`. -/
def prop1 : CloudProp :=
  { vm_name := some "web-1", base_vm_name := some "base-img",
    instanceId := some "web-1" }

/-- Fixture: remote state in which `web-1` already exists and is `RUNNING`. -/
def sysT : Sys := { world := ⟨[vmWeb]⟩, cache := [], trace := [] }

/-- Fixture: remote state in which only the base image exists, so `web-1` is
`NON_EXISTENT`. -/
def sysC : Sys := { world := ⟨[baseImg]⟩, cache := [], trace := [] }

/-- Fixture: the registry entry `_get_instance` derives for `web-1` in
`sysT`. -/
def instWeb : Instance :=
  { id := "web-1", vm := some vmWeb, vm_name := "web-1",
    base_vm_name := "base-img", vm_state := "VM_RUNNING", ipv4 := none }

/-- Fixture: the registry entry `_get_instance` derives for `web-1` in
`sysC`. -/
def instC : Instance :=
  { id := "web-1", vm := none, vm_name := "web-1",
    base_vm_name := "base-img", vm_state := "VM_NON_EXISTENT", ipv4 := none }

/-- Fixture: a one-object descriptor heap holding `prop1` at address 0. -/
def hp0 : PropHeap := { objs := [(0, prop1)], next := 1 }

/-- Fixture: scheduler state at the top of the first terminate iteration for
`web-1`: one not-yet-started delete job with a null collected handle. -/
def st0 : LoopSt :=
  { sys := sysT, reg := [("web-1", instWeb)],
    jobs := [("web-1", ⟨"web-1", Gen.notStarted WFKind.delete⟩)],
    tasks := [("web-1", none)], updated_props := [] }

/-- Fixture: `sysC` after `_get_base_vm` has populated the base-image
cache. -/
def sysC1 : Sys :=
  { world := ⟨[baseImg]⟩, cache := [("base-img", baseImg)], trace := [] }

theorem alookup_cons {α : Type} (p : String × α) (l : List (String × α)) (k : String) :
    alookup (p :: l) k = if p.1 == k then some p.2 else alookup l k := by
  by_cases hp : p.1 == k <;> simp [alookup, List.find?_cons, hp]

theorem aset_cons_ne {α : Type} (p : String × α) (l : List (String × α)) (k : String)
    (v : α) (hp : (p.1 == k) = false) : aset (p :: l) k v = p :: aset l k v := by
  have hp' : ¬ ((p.1 == k) = true) := by simp [hp]
  unfold aset
  rw [List.any_cons, hp, Bool.false_or]
  by_cases hr : l.any (fun q => q.1 == k) = true
  · rw [if_pos hr, if_pos hr, List.map_cons, if_neg hp']
  · rw [if_neg hr, if_neg hr, List.cons_append]

theorem alookup_aset {α : Type} (l : List (String × α)) (k : String) (v : α) :
    alookup (aset l k v) k = some v := by
  induction l with
  | nil => simp [aset, alookup, List.find?]
  | cons p rest ih =>
      by_cases hp : (p.1 == k) = true
      · have hst : aset (p :: rest) k v
            = (k, v) :: rest.map (fun q => if q.1 == k then (k, v) else q) := by
          unfold aset
          rw [List.any_cons, hp, Bool.true_or, if_pos rfl, List.map_cons, if_pos hp]
        rw [hst, alookup_cons]
        simp
      · rw [aset_cons_ne p rest k v (by simpa using hp), alookup_cons]
        rw [if_neg hp]
        exact ih

theorem runLoop_nil (mkTask : Op → Handle) (refresh : Handle → Handle) (collect : Bool)
    (fuel : Nat) (st : LoopSt) (h : st.jobs = []) :
    runLoop mkTask refresh collect fuel st = some st := by
  cases fuel <;> simp [runLoop, h]

theorem get_base_vm_sys (sys : Sys) (b : String) :
    (get_base_vm sys b).2.world = sys.world ∧ (get_base_vm sys b).2.trace = sys.trace := by
  unfold get_base_vm
  rcases h : alookup sys.cache b with _ | base
  · rcases h2 : find_vm_by_name sys.world b with _ | bv <;> simp [h, h2]
  · simp [h]

theorem runJobs_events (mkTask : Op → Handle) (collect : Bool) :
    ∀ (l : List (String × Job)) (st st' : LoopSt),
      (runJobs mkTask collect l st).2 = some st' →
      (runJobs mkTask collect l st).1 = l.map (fun p => Event.resume p.1) := by
  intro l
  induction l with
  | nil => intro st st' _; rfl
  | cons p rest ih =>
      intro st st' hsucc
      obtain ⟨id, job0⟩ := p
      rcases hj : alookup st.jobs id with _ | job <;>
        rcases ht : alookup st.tasks id with _ | h? <;>
        simp only [runJobs, hj, ht] at hsucc ⊢ <;>
        try exact absurd hsucc (by simp)
      rcases hr : alookup st.reg job.instKey with _ | inst <;>
        simp only [hr] at hsucc ⊢
      · exact absurd hsucc (by simp)
      rcases hs : stepGen mkTask st.sys inst job.gen h? with ⟨sys1, inst1, res⟩
      cases res with
      | yield cfg h =>
          simp only [hs] at hsucc ⊢
          rw [ih _ st' hsucc]
          rfl
      | stop =>
          simp only [hs] at hsucc ⊢
          by_cases hc : collect = true
          · subst hc
            rw [if_pos rfl] at hsucc ⊢
            rcases hr2 : alookup (aset st.reg job.instKey inst1) id with _ | inst2 <;>
              simp only [hr2] at hsucc ⊢
            · exact absurd hsucc (by simp)
            · rcases hip : inst2.ipv4 with _ | ip <;> simp only [hip] at hsucc ⊢
              · exact absurd hsucc (by simp)
              · rw [ih _ st' hsucc]
                rfl
          · rw [if_neg hc] at hsucc ⊢
            rw [ih _ st' hsucc]
            rfl
      | fail =>
          simp only [hs] at hsucc ⊢
          exact absurd hsucc (by simp)

/-- C1 (corrected): after `terminate_instances` has run the Delete workflow
for `web-1` to completion (power-off then delete issued), the instance's
entry is still present in `self.instances`, with its derived state and cached
VM object untouched — the registry entry is never removed, refuting the
claim. -/
theorem C1_counterexample :
    (terminate_instances mkPending (refreshWith "10.0.0.5") 10 sysT [] [prop1]).map
        (fun r => (r.1.trace, alookup r.2 "web-1"))
      = some ([Op.powerOff "web-1", Op.deleteVm "web-1"], some instWeb) := by
  rfl

/-- C1 (amended): completing a Delete workflow removes only the scheduler's
`jobs`/`tasks` entries; `self.instances` keeps the entry with its stale
`VM_RUNNING` state and cached VM object, so a second `terminate_instances`
call on the same id is not a no-op — it re-issues a full power-off + delete
Delete workflow from the cached state. -/
theorem C1_theorem :
    (terminate_instances mkPending (refreshWith "10.0.0.5") 10 sysT [] [prop1]).bind
        (fun r =>
          (terminate_instances mkPending (refreshWith "10.0.0.5") 10 r.1 r.2 [prop1]).map
            (fun r2 => (r2.1.trace, alookup r2.2 "web-1")))
      = some ([Op.powerOff "web-1", Op.deleteVm "web-1",
               Op.powerOff "web-1", Op.deleteVm "web-1"], some instWeb) := by
  rfl

/-- C7: a Clone workflow driven to completion by `wait_instances` on a
`NON_EXISTENT` instance issues, in order, a full (non-linked) clone of the
base image under the target name, a power-on, and a memory snapshot named
`pristine` (the guest address is polled, not a remote call); afterwards the
registry entry is `VM_RUNNING` with the reported address recorded, and the
returned record is `{host: addr, private: {ip: addr, dns: addr}}` with the
same address in all three fields. -/
theorem C7_theorem :
    ((wait_instances mkPending (refreshWith "10.0.0.5") 10 sysC [] [prop1] "running").map
        (fun r => (r.1.trace, r.2.2))
      = some ([Op.cloneVm "base-img" "web-1" false, Op.powerOn "web-1",
               Op.createSnapshot "web-1" "pristine" true],
              [("web-1", UpdatedProp.mk "10.0.0.5" ⟨"10.0.0.5", "10.0.0.5"⟩)])) ∧
    ((wait_instances mkPending (refreshWith "10.0.0.5") 10 sysC [] [prop1] "running").map
        (fun r => (alookup r.2.1 "web-1").map (fun i => (i.vm_state, i.ipv4)))
      = some (some ("VM_RUNNING", some "10.0.0.5"))) := by
  exact ⟨rfl, rfl⟩

theorem get_instance_cached (w : World) (reg : Registry) (prop : CloudProp)
    (n b : String) (inst : Instance)
    (h1 : prop.vm_name = some n) (h2 : (n == "") = false)
    (h3 : prop.base_vm_name = some b) (h4 : (b == "") = false)
    (h6 : alookup reg n = some inst) :
    get_instance w reg prop = some (inst, reg) := by
  obtain ⟨pv, pb, pi⟩ := prop
  replace h1 : pv = some n := h1
  replace h3 : pb = some b := h3
  subst h1
  subst h3
  simp only [get_instance, if_neg (ne_true_of_eq_false h2),
    if_neg (ne_true_of_eq_false h4), h6]

/-- C2: a workflow step's completion predicate `done` holds exactly when the
refreshed handle has an `info` attribute whose state is the terminal
`success` or `error` (false on a bare VM handle), and resuming any
task-waiting suspension point with an errored handle is literally the same
step as resuming it with a succeeded one — there is no error branch. -/
theorem C2_theorem :
    (∀ i : TaskInfo, done (.task i) = (i.state == "success" || i.state == "error")) ∧
    (∀ v : VM, done (.vmRef v) = false) ∧
    (∀ (mkTask : Op → Handle) (sys : Sys) (inst : Instance) (cfg : GenCfg),
      waitsOnTask cfg = true →
      stepGen mkTask sys inst (.suspended cfg) (some (.task ⟨"error"⟩)) =
      stepGen mkTask sys inst (.suspended cfg) (some (.task ⟨"success"⟩))) := by
  refine ⟨fun i => rfl, fun v => rfl, ?_⟩
  intro mkTask sys inst cfg hcfg
  cases cfg <;> first
    | rfl
    | simp [waitsOnTask] at hcfg

/-- C2 witness: the delete step of the Delete workflow proceeds identically
past an errored and a succeeded delete task. -/
theorem C2_witness :
    waitsOnTask GenCfg.deleteAtDelete = true ∧
    stepGen mkPending sysT instWeb (.suspended .deleteAtDelete) (some (.task ⟨"error"⟩)) =
    stepGen mkPending sysT instWeb (.suspended .deleteAtDelete) (some (.task ⟨"success"⟩)) :=
  ⟨rfl, C2_theorem.2.2 mkPending sysT instWeb .deleteAtDelete rfl⟩

/-- C3 (corrected): bring-up (`wait_state='running'`) of an instance already
`VM_RUNNING` does not issue an Update workflow — it matches no dispatch
branch at all, and the returned map has no entry for the instance (the
update branch runs only for `wait_state != 'running'`). -/
theorem C3_counterexample :
    ¬ (select_job "running" "VM_RUNNING" = some WFKind.update) ∧
    (wait_instances mkPending (refreshWith "10.0.0.5") 10 sysT [] [prop1] "running").map
        (fun r => r.2.2)
      = some [] := by
  exact ⟨by decide, rfl⟩

/-- C3 (amended): bring-up of an instance already `VM_RUNNING` issues no
workflow whatsoever (no clone, no revert, and also no update — the Update
workflow belongs to the `wait_state != 'running'` branch), so the call
returns with the registry and remote state untouched and with no entry for
that instance in the returned map. -/
theorem C3_theorem (mkTask : Op → Handle) (refresh : Handle → Handle) (fuel : Nat)
    (sys : Sys) (reg : Registry) (prop : CloudProp) (n b iid : String) (inst : Instance)
    (h1 : prop.vm_name = some n) (h2 : (n == "") = false)
    (h3 : prop.base_vm_name = some b) (h4 : (b == "") = false)
    (h5 : prop.instanceId = some iid)
    (h6 : alookup reg n = some inst) (h7 : inst.vm_state = "VM_RUNNING") :
    select_job "running" "VM_RUNNING" = none ∧
    wait_instances mkTask refresh fuel sys reg [prop] "running" = some (sys, reg, []) := by
  refine ⟨rfl, ?_⟩
  have hg := get_instance_cached sys.world reg prop n b inst h1 h2 h3 h4 h6
  have hsel : select_job "running" "VM_RUNNING" = none := rfl
  simp only [wait_instances, buildJobs, h5, hg, h7, hsel]
  rw [runLoop_nil mkTask refresh true fuel ⟨sys, reg, [], [], []⟩ rfl]

/-- C3 witness: concrete bring-up of the cached `VM_RUNNING` instance
`web-1`. -/
theorem C3_witness :
    select_job "running" "VM_RUNNING" = none ∧
    wait_instances mkPending (refreshWith "10.0.0.5") 3 sysT [("web-1", instWeb)]
        [prop1] "running"
      = some (sysT, [("web-1", instWeb)], []) :=
  C3_theorem mkPending (refreshWith "10.0.0.5") 3 sysT [("web-1", instWeb)] prop1
    "web-1" "base-img" "web-1" instWeb rfl rfl rfl rfl rfl rfl rfl

/-- C4: on first resolution (no cached registry entry), the derived state is
`VM_NON_EXISTENT` when the lookup finds nothing, `VM_DIRTY` when a VM is
found whose pristine-first-root-snapshot test fails, `VM_CLEAN` when a VM
with a pristine first root snapshot is found powered off, and `VM_RUNNING`
when such a VM is found powered on. -/
theorem C4_theorem (w : World) (reg : Registry) (prop : CloudProp) (n b : String)
    (h1 : prop.vm_name = some n) (h2 : (n == "") = false)
    (h3 : prop.base_vm_name = some b) (h4 : (b == "") = false)
    (h5 : alookup reg n = none) :
    ((get_instance w reg prop).map (fun p => p.1.vm_state)
        = some (derive_vm_state (find_vm_by_name w n))) ∧
    (find_vm_by_name w n = none →
      derive_vm_state (find_vm_by_name w n) = "VM_NON_EXISTENT") ∧
    (∀ vm, find_vm_by_name w n = some vm →
      (pristineFirst vm = false →
        derive_vm_state (find_vm_by_name w n) = "VM_DIRTY") ∧
      (pristineFirst vm = true → vm.powerState = "poweredOff" →
        derive_vm_state (find_vm_by_name w n) = "VM_CLEAN") ∧
      (pristineFirst vm = true → vm.powerState = "poweredOn" →
        derive_vm_state (find_vm_by_name w n) = "VM_RUNNING")) := by
  refine ⟨?_, ?_, ?_⟩
  · obtain ⟨pv, pb, pi⟩ := prop
    replace h1 : pv = some n := h1
    replace h3 : pb = some b := h3
    subst h1
    subst h3
    simp only [get_instance, if_neg (ne_true_of_eq_false h2),
      if_neg (ne_true_of_eq_false h4), h5]
    rfl
  · intro hf
    rw [hf]
    rfl
  · intro vm hf
    rw [hf]
    refine ⟨?_, ?_, ?_⟩
    · intro hpr
      simp [derive_vm_state, hpr]
    · intro hpr hpow
      simp [derive_vm_state, hpr, hpow]
    · intro hpr hpow
      simp [derive_vm_state, hpr, hpow]

/-- C4 witness: first resolution of `web-1` in the world where it exists
pristine and powered on. -/
theorem C4_witness :
    (get_instance (World.mk [vmWeb]) [] prop1).map (fun p => p.1.vm_state)
      = some (derive_vm_state (find_vm_by_name (World.mk [vmWeb]) "web-1")) :=
  (C4_theorem (World.mk [vmWeb]) [] prop1 "web-1" "base-img" rfl rfl rfl rfl rfl).1

theorem done_running : done (Handle.task ⟨"running"⟩) = false := rfl

theorem done_success : done (Handle.task ⟨"success"⟩) = true := rfl

theorem map_keep {α : Type} (l : List α) (g : α → α)
    (h : ∀ p ∈ l, g p = p) : l.map g = l := by
  induction l with
  | nil => rfl
  | cons p rest ih =>
      rw [List.map_cons, h p (by simp), ih (fun q hq => h q (by simp [hq]))]

/-- C5: in any iteration of the `while jobs:` scheduler loop that completes
without an exception, the observable events are exactly one batched
`update_many_objects` refresh — present if and only if at least one collected
task handle is non-null, hence at most one refresh regardless of the number
of active workflows — followed by one `job.send` resume of every active
workflow, in job order, all before the end-of-iteration sleep; this holds for
both the terminate loop (`collect = false`) and the wait loop
(`collect = true`). -/
theorem C5_theorem (mkTask : Op → Handle) (refresh : Handle → Handle) (collect : Bool)
    (st st' : LoopSt) (h : (loopBody mkTask refresh collect st).2 = some st') :
    (loopBody mkTask refresh collect st).1
      = (if anyNonNull st.tasks then [Event.refreshCall] else [])
        ++ st.jobs.map (fun p => Event.resume p.1) := by
  by_cases hd : anyNonNull st.tasks = true
  · simp only [loopBody, if_pos hd] at h ⊢
    rw [runJobs_events mkTask collect _ _ st' h]
  · simp only [loopBody, if_neg hd] at h ⊢
    rw [runJobs_events mkTask collect _ _ st' h]

/-- C5 witness: the first terminate iteration for `web-1` — no handle yet, so
no refresh, and the single delete job is resumed. -/
theorem C5_witness :
    (loopBody mkPending (refreshWith "10.0.0.5") false st0).1
      = (if anyNonNull st0.tasks then [Event.refreshCall] else [])
        ++ st0.jobs.map (fun p => Event.resume p.1) :=
  C5_theorem mkPending (refreshWith "10.0.0.5") false st0
    (((loopBody mkPending (refreshWith "10.0.0.5") false st0).2).get (by decide))
    (Option.some_get _).symm

/-- C6: on a `VM_NON_EXISTENT` instance, bring-up dispatches the Clone
workflow (with `nuke_old=True`), but since no same-named resource exists the
removal block is skipped: the first remote operation the workflow issues is
the clone itself — no power-off and no delete precede it, and the workflow
suspends polling the clone task. -/
theorem C6_theorem (sys : Sys) (inst : Instance) (base_vm : VM) (sys1 : Sys)
    (hbase : get_base_vm sys inst.base_vm_name = (some base_vm, sys1))
    (hfind : find_vm_by_name sys1.world inst.vm_name = none) :
    select_job "running" "VM_NON_EXISTENT" = some (WFKind.clone true) ∧
    (cloneStart mkPending true sys inst).sys.trace
      = sys.trace ++ [Op.cloneVm base_vm.name inst.vm_name false] ∧
    (cloneStart mkPending true sys inst).res = GenRes.yield .cloneAtClone pendingTask := by
  have htr : sys1.trace = sys.trace := by
    have h2 := (get_base_vm_sys sys inst.base_vm_name).2
    rw [hbase] at h2
    exact h2
  refine ⟨rfl, ?_, ?_⟩ <;>
    simp only [cloneStart, hbase, hfind, cloneEnterClone, cloneCloneResume, issueOp,
      mkPending, pendingTask, done_running, done_success,
      Bool.false_eq_true, eq_self_iff_true, if_true, if_false]
  rw [htr]

/-- C6 witness: concrete bring-up of `web-1` in a world holding only the base
image. -/
theorem C6_witness :
    (cloneStart mkPending true sysC instC).sys.trace
      = sysC.trace ++ [Op.cloneVm baseImg.name instC.vm_name false] :=
  (C6_theorem sysC instC baseImg sysC1 rfl rfl).2.1

/-- C8: the Delete workflow run to completion first resolves the VM handle,
issues a power-off exactly when the resolved VM is powered on, and then
issues the delete — the power-off, when present, precedes the delete in the
operation trace. -/
theorem C8_theorem (sys : Sys) (inst : Instance) (vm : VM) (h : inst.vm = some vm) :
    ∃ sysF instF,
      driveGen mkPending (refreshWith "10.0.0.5") 5 sys inst (.notStarted .delete) none
        = some (sysF, instF) ∧
      sysF.trace = sys.trace ++
        (if vm.powerState == "poweredOn"
         then [Op.powerOff vm.name, Op.deleteVm vm.name]
         else [Op.deleteVm vm.name]) := by
  by_cases hp : (vm.powerState == "poweredOn") = true
  · refine ⟨issueOp (issueOp sys (Op.powerOff vm.name)) (Op.deleteVm vm.name), inst, ?_, ?_⟩
    · simp only [driveGen, stepGen, deleteStart, resolveVm, h, if_pos hp,
        deletePowerOffResume, deleteEnterDelete, deleteDeleteResume, mkPending, pendingTask,
        refreshWith, done_running, done_success,
        Bool.false_eq_true, eq_self_iff_true, if_true, if_false]
    · simp [issueOp, hp]
  · refine ⟨issueOp sys (Op.deleteVm vm.name), inst, ?_, ?_⟩
    · simp only [driveGen, stepGen, deleteStart, resolveVm, h, if_neg hp,
        deleteEnterDelete, deleteDeleteResume, mkPending, pendingTask,
        refreshWith, done_running, done_success,
        Bool.false_eq_true, eq_self_iff_true, if_true, if_false]
    · simp only [issueOp, List.append_assoc]
      rw [if_neg hp]

/-- C8 witness: deleting the powered-on `web-1` issues power-off then
delete. -/
theorem C8_witness :
    ∃ sysF instF,
      driveGen mkPending (refreshWith "10.0.0.5") 5 sysT instWeb (.notStarted .delete) none
        = some (sysF, instF) ∧
      sysF.trace = sysT.trace ++
        (if vmWeb.powerState == "poweredOn"
         then [Op.powerOff vmWeb.name, Op.deleteVm vmWeb.name]
         else [Op.deleteVm vmWeb.name]) :=
  C8_theorem sysT instWeb vmWeb rfl

/-- C9: `init_instance` returns a descriptor carrying the instance id, copies
the caller's fields, and the registry entry ends up `VM_CLEAN` when the
derived state was `VM_RUNNING` and unchanged otherwise. -/
theorem C9_theorem (w : World) (reg : Registry) (prop : CloudProp)
    (inst0 : Instance) (reg0 : Registry)
    (h : get_instance w reg prop = some (inst0, reg0)) :
    ∃ res reg1, init_instance w reg prop = some (res, reg1) ∧
      res.cloud.instanceId = some inst0.id ∧
      res.cloud.vm_name = prop.vm_name ∧
      res.cloud.base_vm_name = prop.base_vm_name ∧
      alookup reg1 inst0.id
        = some { inst0 with vm_state :=
            if inst0.vm_state == "VM_RUNNING" then "VM_CLEAN" else inst0.vm_state } := by
  refine ⟨⟨{ prop with instanceId := some inst0.id }⟩,
    aset reg0 inst0.id { inst0 with vm_state :=
      if inst0.vm_state == "VM_RUNNING" then "VM_CLEAN" else inst0.vm_state },
    ?_, rfl, rfl, rfl, alookup_aset _ _ _⟩
  simp only [init_instance, h]

/-- C9 witness: initialising `web-1` while it is `VM_RUNNING` stores it as
`VM_CLEAN` and attaches the id. -/
theorem C9_witness :
    ∃ res reg1,
      init_instance (World.mk [vmWeb]) [] prop1 = some (res, reg1) ∧
      res.cloud.instanceId = some instWeb.id ∧
      res.cloud.vm_name = prop1.vm_name ∧
      res.cloud.base_vm_name = prop1.base_vm_name ∧
      alookup reg1 instWeb.id
        = some { instWeb with vm_state :=
            if instWeb.vm_state == "VM_RUNNING" then "VM_CLEAN" else instWeb.vm_state } :=
  C9_theorem (World.mk [vmWeb]) [] prop1 instWeb [("web-1", instWeb)] rfl

/-- C10: `init_instance` never mutates the caller's descriptor object: on the
object heap, the attached instance id is written only to the fresh deep copy,
whose address differs from the input's, and the value at the caller's address
is unchanged after the call. -/
theorem C10_theorem (w : World) (reg : Registry) (hp : PropHeap) (a a2 : Nat)
    (hp2 : PropHeap) (reg2 : Registry)
    (hwf : heapWF hp = true)
    (hsucc : init_instance_heap w reg hp a = some (a2, hp2, reg2)) :
    hlookup hp2 a = hlookup hp a ∧ a2 ≠ a := by
  unfold init_instance_heap at hsucc
  rcases hl : hlookup hp a with _ | prop <;> simp only [hl] at hsucc
  · exact absurd hsucc (by simp)
  rcases hg : get_instance w reg prop with _ | pr <;> simp only [hg] at hsucc
  · exact absurd hsucc (by simp)
  obtain ⟨inst, reg1⟩ := pr
  rw [Option.some.injEq, Prod.mk.injEq, Prod.mk.injEq] at hsucc
  obtain ⟨ha2, hhp2, hreg2⟩ := hsucc
  simp only [halloc] at ha2 hhp2
  rcases hfind : hp.objs.find? (fun p => p.1 == a) with _ | entry
  · rw [hlookup, hfind] at hl
    exact absurd hl (by simp)
  have hmem : entry ∈ hp.objs := List.mem_of_find?_eq_some hfind
  have hkey : (entry.1 == a) = true := by
    have hk := List.find?_some hfind
    exact hk
  have hlt : entry.1 < hp.next := by
    have hall := List.all_eq_true.mp hwf entry hmem
    exact of_decide_eq_true hall
  have haval : a < hp.next := by
    have he : entry.1 = a := eq_of_beq hkey
    rw [he] at hlt
    exact hlt
  have hne : hp.next ≠ a := Nat.ne_of_gt haval
  subst ha2
  refine ⟨?_, hne⟩
  rw [← hhp2]
  simp only [hset]
  have hl2 : entry.2 = prop := by
    rw [hlookup, hfind] at hl
    simpa using hl
  rw [hlookup, List.map_append]
  have hmap : hp.objs.map
      (fun p => if p.1 == hp.next then (hp.next, { prop with instanceId := some inst.id }) else p)
      = hp.objs := by
    refine map_keep _ _ (fun p hpmem => ?_)
    have hplt : p.1 < hp.next := by
      have hall := List.all_eq_true.mp hwf p hpmem
      exact of_decide_eq_true hall
    rw [if_neg]
    intro hcontra
    exact absurd (eq_of_beq hcontra) (Nat.ne_of_lt hplt)
  rw [hmap, List.find?_append, hfind]
  simp [hl2]

/-- C10 witness: initialising through address 0 of the concrete one-object
heap leaves the caller's descriptor untouched and returns the fresh address
1. -/
theorem C10_witness :
    hlookup
        { objs := [(0, prop1),
                   (1, { prop1 with instanceId := some "web-1" })], next := 2 } 0
      = hlookup hp0 0 ∧ (1 : Nat) ≠ 0 :=
  C10_theorem (World.mk [vmWeb]) [] hp0 0 1
    { objs := [(0, prop1), (1, { prop1 with instanceId := some "web-1" })], next := 2 }
    [("web-1", { instWeb with vm_state := "VM_CLEAN" })] rfl rfl

end Poni
